import Mathlib

/-!
Verification of the UrbanPulse scenario simulator.

The development embeds two parts of the system:

* the simulation and metrics engine (feature transformation, aggregate
  metrics, orchestration), modelled from the specification because the
  backend service files (`backend/services/simulation_service.py`,
  `backend/routers/simulate.py`, `backend/utils/cache.py` in the project
  layout documented by the README) are not among the sources; and
* the frontend code that is among the sources: the aggregate helpers
  `calculateAvgTraffic` / `calculateAvgAQI` of the map page, the
  simulation panel's range input, the metrics panel's cards, and the API
  client's `runSimulation`.

All numeric values are embedded as rationals.
-/

namespace UrbanPulse

/-- Mean of a list of rationals.  For the empty list this is `0 / 0 = 0`
in `ℚ`, matching the engines' empty-collection policy. -/
def meanQ (xs : List ℚ) : ℚ := xs.sum / xs.length

namespace Backend

/-- Modelled from the spec: congestion category of a traffic feature
(the backend service files are missing from the sources).  The
thresholds `0.4` and `0.7` are the ones the frontend `MapView` paint
expression uses for the continuous `congestion_level`. -/
inductive CongestionCategory where
  | low
  | moderate
  | high
  deriving DecidableEq, Repr

/-- Modelled from the spec: threshold table deriving the categorical
congestion label from the continuous level (`< 0.4` low, `< 0.7`
moderate, otherwise high, as in the `MapView` line-color expression). -/
def congestionCategory (level : ℚ) : CongestionCategory :=
  if level < 2/5 then .low else if level < 7/10 then .moderate else .high

/-- Modelled from the spec: a traffic line feature's numeric properties
(`speed` km/h, continuous congestion level in `[0,1]`, `volume` vehicle
count, optional `capacity`).  The backend schema file is missing from
the sources. -/
structure TrafficFeature where
  speed : ℚ
  congestion : ℚ
  volume : ℚ
  capacity : Option ℚ
  deriving DecidableEq, Repr

/-- Modelled from the spec: an air-quality point feature's properties
(`aqi`, `pm25`, `pm10`, `station`); the backend schema file is missing
from the sources. -/
structure AQIFeature where
  aqi : ℚ
  pm25 : ℚ
  pm10 : ℚ
  station : String
  deriving DecidableEq, Repr

/-- Modelled from the spec: the tunable transformation coefficients
(`k_speed` for the speed gain, a smaller air-quality sensitivity for the
pollutant reduction). -/
structure Config where
  kSpeed : ℚ
  kAqi : ℚ
  deriving DecidableEq, Repr

/-- Modelled from the spec: per-feature traffic transformation of the
missing `ScenarioTransformer`:
`new_speed = old_speed * (1 + k_speed * pct/100)` capped at `1.5×` the
original, `new_volume = old_volume * (1 - pct/100)` floored at `0`, and
congestion recomputed from `new_volume / capacity`, or rescaled
proportionally to the reduction when `capacity` is absent. -/
def transformTrafficFeature (cfg : Config) (pct : ℚ) (f : TrafficFeature) : TrafficFeature :=
  let v := max 0 (f.volume * (1 - pct / 100))
  { speed := min (f.speed * (1 + cfg.kSpeed * pct / 100)) (f.speed * (3/2))
    congestion :=
      match f.capacity with
      | some c => v / c
      | none => f.congestion * (1 - pct / 100)
    volume := v
    capacity := f.capacity }

/-- Modelled from the spec: per-feature air-quality transformation of
the missing `ScenarioTransformer`: `pm25`, `pm10` and `aqi` receive a
proportional reduction keyed off the same `reductionPct` through the
air-quality sensitivity coefficient, floored at `0`. -/
def transformAQIFeature (cfg : Config) (pct : ℚ) (g : AQIFeature) : AQIFeature :=
  { aqi := max 0 (g.aqi * (1 - cfg.kAqi * pct / 100))
    pm25 := max 0 (g.pm25 * (1 - cfg.kAqi * pct / 100))
    pm10 := max 0 (g.pm10 * (1 - cfg.kAqi * pct / 100))
    station := g.station }

/-- Modelled from the spec: the store's baseline collections (traffic
line features and air-quality point features), loaded once and read-only. -/
structure Store where
  traffic : List TrafficFeature
  aqi : List AQIFeature
  deriving DecidableEq, Repr

/-- Modelled from the spec: `ScenarioTransformer.apply`, mapping the
per-feature transformations over both collections in order. -/
def applyScenario (cfg : Config) (pct : ℚ) (s : Store) : Store :=
  { traffic := s.traffic.map (transformTrafficFeature cfg pct)
    aqi := s.aqi.map (transformAQIFeature cfg pct) }

/-- Modelled from the spec: the baseline metrics snapshot frozen at
simulation start (mean traffic volume and mean AQI), against which the
derived reduction percentages are computed. -/
structure BaselineSnapshot where
  volMean : ℚ
  aqiMean : ℚ
  deriving DecidableEq, Repr

/-- Modelled from the spec: baseline snapshot of a store. -/
def baselineOf (s : Store) : BaselineSnapshot :=
  { volMean := meanQ (s.traffic.map (fun f => f.volume))
    aqiMean := meanQ (s.aqi.map (fun g => g.aqi)) }

/-- Modelled from the spec: a derived delta expressed as a percentage
relative to a baseline value (`0` when the baseline is `0`, so empty
baselines yield zero rather than an error). -/
def relDelta (base now : ℚ) : ℚ :=
  if base = 0 then 0 else (base - now) / base * 100

/-- Aggregate metrics record of the response contract. -/
structure Metrics where
  avg_speed : ℚ
  congestion_index : ℚ
  co2_reduction : ℚ
  aqi_improvement : ℚ
  deriving DecidableEq, Repr

/-- Modelled from the spec: `MetricsCalculator.computeMetrics`.
`avg_speed` and `congestion_index` are arithmetic means over the traffic
features (zero on empty collections); `co2_reduction` and
`aqi_improvement` are derived deltas of the mean volume and mean AQI
relative to the frozen baseline snapshot. -/
def computeMetrics (tc : List TrafficFeature) (ac : List AQIFeature)
    (base : BaselineSnapshot) : Metrics :=
  { avg_speed := meanQ (tc.map (fun f => f.speed))
    congestion_index := meanQ (tc.map (fun f => f.congestion))
    co2_reduction := relDelta base.volMean (meanQ (tc.map (fun f => f.volume)))
    aqi_improvement := relDelta base.aqiMean (meanQ (ac.map (fun g => g.aqi))) }

/-- Modelled from the spec: the metrics of the transformed collections,
relative to the baseline snapshot of the untransformed store. -/
def afterMetrics (cfg : Config) (s : Store) (pct : ℚ) : Metrics :=
  computeMetrics (applyScenario cfg pct s).traffic (applyScenario cfg pct s).aqi (baselineOf s)

/-- The assembled before/after response of the orchestrator. -/
structure SimulationResult where
  before : Store
  after : Store
  metricsBefore : Metrics
  metricsAfter : Metrics
  deriving DecidableEq, Repr

/-- Error taxonomy of the orchestrator (only the parameter-validation
case is reachable in the modelled engine). -/
inductive SimError where
  | invalidParameter
  deriving DecidableEq, Repr

/-- Modelled from the spec: `SimulationOrchestrator.simulate`.  Validates
`0 ≤ reductionPct ≤ 100` and fails with `InvalidParameter` before any
computation otherwise; on success it reads the baseline, applies the
transformer, and computes metrics for both sides against the frozen
baseline snapshot. -/
def simulate (cfg : Config) (store : Store) (pct : ℚ) : Except SimError SimulationResult :=
  if pct < 0 ∨ 100 < pct then .error .invalidParameter
  else
    .ok { before := store
          after := applyScenario cfg pct store
          metricsBefore := computeMetrics store.traffic store.aqi (baselineOf store)
          metricsAfter := afterMetrics cfg store pct }

end Backend

namespace Client

/-- Properties of a traffic point feature of the city-twin page
(`src/types.ts` of the Bolt frontend): `traffic_volume`,
`congestion_level`, `street`. -/
structure TrafficProperties where
  traffic_volume : ℚ
  congestion_level : String
  street : String
  deriving DecidableEq, Repr

/-- A traffic feature as consumed by the city-twin page. -/
structure TrafficFeature where
  properties : TrafficProperties
  deriving DecidableEq, Repr

/-- Traffic feature collection (`TrafficData`). -/
structure TrafficData where
  features : List TrafficFeature
  deriving DecidableEq, Repr

/-- Properties of an AQI feature of the city-twin page. -/
structure AQIProperties where
  aqi : ℚ
  category : String
  deriving DecidableEq, Repr

/-- An AQI feature as consumed by the city-twin page. -/
structure AQIFeature where
  properties : AQIProperties
  deriving DecidableEq, Repr

/-- AQI feature collection (`AQIData`). -/
structure AQIData where
  features : List AQIFeature
  deriving DecidableEq, Repr

/-- `calculateAvgTraffic` of `MapView` (`src/pages`): `0` when the data
is null or has no features, otherwise the sum of the features'
`traffic_volume` properties divided by the feature count. -/
def calculateAvgTraffic : Option TrafficData → ℚ
  | none => 0
  | some d =>
    if d.features.length = 0 then 0
    else (d.features.map (fun f => f.properties.traffic_volume)).sum / d.features.length

/-- `calculateAvgAQI` of `MapView` (`src/pages`): `0` when the data is
null or has no features, otherwise the sum of the features' `aqi`
properties divided by the feature count. -/
def calculateAvgAQI : Option AQIData → ℚ
  | none => 0
  | some d =>
    if d.features.length = 0 then 0
    else (d.features.map (fun f => f.properties.aqi)).sum / d.features.length

end Client

namespace Frontend

/-- Properties of a traffic line feature (`frontend/src/types`). -/
structure TrafficFeatureProps where
  name : Option String
  speed : ℚ
  congestion : String
  volume : ℚ
  capacity : Option ℚ
  deriving DecidableEq, Repr

/-- Properties of an AQI point feature (`frontend/src/types`). -/
structure AQIFeatureProps where
  aqi : ℚ
  category : String
  pm25 : ℚ
  pm10 : ℚ
  no2 : Option ℚ
  o3 : Option ℚ
  station : String
  color : Option String
  deriving DecidableEq, Repr

/-- A feature of a `GeoJSONCollection` is either a traffic feature or an
AQI feature (`frontend/src/types`). -/
inductive GeoJSONFeature where
  | traffic (props : TrafficFeatureProps)
  | airQuality (props : AQIFeatureProps)
  deriving DecidableEq, Repr

/-- `GeoJSONCollection` (`frontend/src/types`). -/
structure GeoJSONCollection where
  features : List GeoJSONFeature
  deriving DecidableEq, Repr

/-- `Metrics` (`frontend/src/types`). -/
structure Metrics where
  avg_speed : ℚ
  congestion_index : ℚ
  co2_reduction : ℚ
  aqi_improvement : ℚ
  deriving DecidableEq, Repr

/-- The `metrics` object of a `SimulationResponse`. -/
structure MetricsPair where
  before : Metrics
  after : Metrics
  deriving DecidableEq, Repr

/-- `SimulationResponse` (`frontend/src/types`). -/
structure SimulationResponse where
  before : GeoJSONCollection
  after : GeoJSONCollection
  metrics : MetricsPair
  deriving DecidableEq, Repr

/-- `SimulationRequest` (`frontend/src/types`): the request body sent to
`POST /simulate`. -/
structure SimulationRequest where
  vehicle_reduction : ℚ
  deriving DecidableEq, Repr

/-- A parsed `/simulate` response body as `runSimulation` sees it after
`response.json()`: each of the three required fields may be absent. -/
structure ParsedBody where
  before : Option GeoJSONCollection
  after : Option GeoJSONCollection
  metrics : Option MetricsPair
  deriving DecidableEq, Repr

/-- The fetch outcome `runSimulation` branches on: the `ok` flag of the
HTTP response and the parsed JSON body (`none` when the body is null or
fails to parse). -/
structure HttpResponse where
  ok : Bool
  body : Option ParsedBody
  deriving DecidableEq, Repr

/-- `api.runSimulation` (`frontend/src/services/api.ts`), on the
response side: throws when the response is not ok; throws
`"Invalid simulation response format"` when the parsed body is null or
lacks `before`, `after` or `metrics`; otherwise returns the parsed
response. -/
def runSimulation (resp : HttpResponse) : Except String SimulationResponse :=
  if resp.ok = false then Except.error "Simulation failed"
  else
    match resp.body with
    | none => Except.error "Invalid simulation response format"
    | some d =>
      match d.before, d.after, d.metrics with
      | some b, some a, some m => Except.ok { before := b, after := a, metrics := m }
      | _, _, _ => Except.error "Invalid simulation response format"

/-- Events the simulation panel reacts to: a change of the range input
and the reset button (`SimulationPanel`). -/
inductive PanelEvent where
  | setReduction (v : ℚ)
  | reset
  deriving DecidableEq, Repr

/-- Value produced by the range input with `min="0" max="100"`: the
browser clamps the slider value into `[0, 100]`. -/
def rangeClamp (v : ℚ) : ℚ := min 100 (max 0 v)

/-- One step of the panel's `vehicleReduction` state (`SimulationPanel`):
a slider change stores the clamped value, reset restores `30`. -/
def panelStep (_s : ℚ) : PanelEvent → ℚ
  | .setReduction v => rangeClamp v
  | .reset => 30

/-- The panel's `vehicleReduction` state after a sequence of events,
starting from the initial `useState(30)`. -/
def panelState (evs : List PanelEvent) : ℚ := evs.foldl panelStep 30

/-- The request body `handleSimulate` produces from the current state:
`{ vehicle_reduction: vehicleReduction }`. -/
def requestPayload (evs : List PanelEvent) : SimulationRequest :=
  { vehicle_reduction := panelState evs }

/-- One rendered metric card of `MetricsPanel`: its label, the `before`
and `after` values passed to `MetricCard`, and the `showDelta` flag. -/
structure MetricCardProps where
  label : String
  before : ℚ
  after : ℚ
  showDelta : Bool
  deriving DecidableEq, Repr

/-- The four cards `MetricsPanel` renders from a response's metrics.
The CO2-reduction and AQI-improvement cards are rendered with the
literal constant `0` as their `before` value. -/
def metricsPanelCards (mb ma : Metrics) : List MetricCardProps :=
  [ { label := "Avg Speed", before := mb.avg_speed, after := ma.avg_speed, showDelta := true }
  , { label := "Congestion Index", before := mb.congestion_index,
      after := ma.congestion_index, showDelta := true }
  , { label := "CO2 Reduction", before := 0, after := ma.co2_reduction, showDelta := false }
  , { label := "AQI Improvement", before := 0, after := ma.aqi_improvement, showDelta := false } ]

end Frontend

/-! Concrete fixtures used to witness hypothesis-bearing theorems. -/

namespace Backend

/-- A concrete coefficient configuration (speed gain `0.8`, air-quality
sensitivity `0.3`). -/
def cfg₀ : Config := { kSpeed := 4/5, kAqi := 3/10 }

/-- A one-feature baseline store matching the README's sample data
(speed 25 km/h, volume 1200; AQI 65, pm25 22.5, pm10 35.2). -/
def store₁ : Store :=
  { traffic := [{ speed := 25, congestion := 1/2, volume := 1200, capacity := none }]
    aqi := [{ aqi := 65, pm25 := 45/2, pm10 := 176/5, station := "Central Station" }] }

/-- The simulation result of running the modelled orchestrator on the
sample store with a 30 percent reduction. -/
def result₁ : SimulationResult :=
  { before := store₁
    after := applyScenario cfg₀ 30 store₁
    metricsBefore := computeMetrics store₁.traffic store₁.aqi (baselineOf store₁)
    metricsAfter := afterMetrics cfg₀ store₁ 30 }

end Backend

namespace Client

/-- A concrete one-feature traffic collection for the city-twin page. -/
def dT₁ : TrafficData :=
  { features := [{ properties :=
      { traffic_volume := 120, congestion_level := "moderate", street := "Main St" } }] }

/-- A concrete one-feature AQI collection for the city-twin page. -/
def dA₁ : AQIData :=
  { features := [{ properties := { aqi := 65, category := "Moderate" } }] }

end Client

namespace Frontend

/-- A concrete empty feature collection. -/
def col₁ : GeoJSONCollection := { features := [] }

/-- A concrete metrics pair matching the README's sample metrics. -/
def mp₁ : MetricsPair :=
  { before := { avg_speed := 25, congestion_index := 13/20, co2_reduction := 0,
                aqi_improvement := 0 }
    after := { avg_speed := 31, congestion_index := 23/50, co2_reduction := 10,
               aqi_improvement := 4 } }

/-- A concrete parsed body with all three required fields present. -/
def body₁ : ParsedBody := { before := some col₁, after := some col₁, metrics := some mp₁ }

/-- A concrete ok HTTP response carrying `body₁`. -/
def respOk₁ : HttpResponse := { ok := true, body := some body₁ }

end Frontend

/-! Helper lemmas shared by the claim theorems. -/

namespace Backend

theorem volume_transformTrafficFeature (cfg : Config) (pct : ℚ) (f : TrafficFeature) :
    (transformTrafficFeature cfg pct f).volume = max 0 (f.volume * (1 - pct / 100)) := rfl

theorem aqi_transformAQIFeature (cfg : Config) (pct : ℚ) (g : AQIFeature) :
    (transformAQIFeature cfg pct g).aqi = max 0 (g.aqi * (1 - cfg.kAqi * pct / 100)) := rfl

theorem relDelta_self (b : ℚ) : relDelta b b = 0 := by
  unfold relDelta
  split <;> simp

theorem relDelta_mono (base a b : ℚ) (hb : 0 ≤ base) (h : b ≤ a) :
    relDelta base a ≤ relDelta base b := by
  unfold relDelta
  rcases eq_or_ne base 0 with h0 | h0
  · simp [h0]
  · have hpos : 0 < base := lt_of_le_of_ne hb (Ne.symm h0)
    have hdiv : (base - a) / base ≤ (base - b) / base :=
      (div_le_div_iff_of_pos_right hpos).mpr (by linarith)
    simp only [if_neg h0]
    exact mul_le_mul_of_nonneg_right hdiv (by norm_num)

theorem meanQ_nonneg (xs : List ℚ) (h : ∀ x ∈ xs, 0 ≤ x) : 0 ≤ meanQ xs :=
  div_nonneg (List.sum_nonneg h) (Nat.cast_nonneg _)

theorem meanQ_map_le {α : Type} (l : List α) (f g : α → ℚ) (h : ∀ a ∈ l, f a ≤ g a) :
    meanQ (l.map f) ≤ meanQ (l.map g) := by
  unfold meanQ
  rw [List.length_map, List.length_map]
  rcases eq_or_ne l [] with rfl | hne
  · simp
  · have hlen : (0 : ℚ) < l.length := by
      exact_mod_cast List.length_pos.mpr hne
    exact (div_le_div_iff_of_pos_right hlen).mpr (List.sum_le_sum h)

theorem map_eq_self_of {α : Type} {l : List α} {f : α → α} (h : ∀ x ∈ l, f x = x) :
    l.map f = l := by
  induction l with
  | nil => rfl
  | cons a t ih =>
    simp only [List.map_cons, h a (List.mem_cons_self a t),
      ih (fun x hx => h x (List.mem_cons_of_mem a hx))]

theorem transformTrafficFeature_zero (cfg : Config) (f : TrafficFeature)
    (hs : 0 ≤ f.speed) (hv : 0 ≤ f.volume)
    (hc : ∀ c ∈ f.capacity, 0 < c ∧ f.congestion = f.volume / c) :
    transformTrafficFeature cfg 0 f = f := by
  obtain ⟨sp, cg, vol, cap⟩ := f
  simp only [transformTrafficFeature]
  have hvol : max 0 (vol * (1 - 0 / 100)) = vol := by
    rw [max_eq_right] <;> simp_all
  cases cap with
  | none =>
    simp only [TrafficFeature.mk.injEq, hvol]
    refine ⟨?_, by norm_num, trivial, trivial⟩
    rw [min_eq_left] <;> [skip; nlinarith] <;> norm_num
  | some c =>
    have hcc := hc c rfl
    simp only [TrafficFeature.mk.injEq, hvol]
    refine ⟨?_, ?_, trivial, trivial⟩
    · rw [min_eq_left] <;> [skip; nlinarith] <;> norm_num
    · exact hcc.2.symm

theorem transformAQIFeature_zero (cfg : Config) (g : AQIFeature)
    (ha : 0 ≤ g.aqi) (hp : 0 ≤ g.pm25) (hq : 0 ≤ g.pm10) :
    transformAQIFeature cfg 0 g = g := by
  obtain ⟨a, p, q, st⟩ := g
  simp only [transformAQIFeature, AQIFeature.mk.injEq]
  refine ⟨?_, ?_, ?_, trivial⟩ <;> (rw [max_eq_right] <;> simp_all)

theorem transformTrafficFeature_hundred_nonneg (cfg : Config) (f : TrafficFeature)
    (hk : 0 ≤ cfg.kSpeed) (hs : 0 ≤ f.speed) (hcap : ∀ c ∈ f.capacity, 0 < c) :
    0 ≤ (transformTrafficFeature cfg 100 f).speed ∧
      0 ≤ (transformTrafficFeature cfg 100 f).volume ∧
      0 ≤ (transformTrafficFeature cfg 100 f).congestion := by
  obtain ⟨sp, cg, vol, cap⟩ := f
  refine ⟨?_, le_max_left _ _, ?_⟩
  · apply le_min
    · apply mul_nonneg hs
      have h : cfg.kSpeed * 100 / 100 = cfg.kSpeed := by ring
      rw [h]
      linarith
    · exact mul_nonneg hs (by norm_num)
  · cases cap with
    | none =>
      show 0 ≤ cg * (1 - 100 / 100)
      norm_num
    | some c =>
      have hc := hcap c rfl
      show 0 ≤ max 0 (vol * (1 - 100 / 100)) / c
      exact div_nonneg (le_max_left _ _) (le_of_lt hc)

theorem simulate_ok_inv (cfg : Config) (s : Store) (pct : ℚ) (r : SimulationResult)
    (h : simulate cfg s pct = Except.ok r) :
    r.before = s ∧ r.after = applyScenario cfg pct s ∧
      r.metricsBefore = computeMetrics s.traffic s.aqi (baselineOf s) ∧
      r.metricsAfter = afterMetrics cfg s pct := by
  unfold simulate at h
  split at h
  · simp at h
  · injection h with h
    subst h
    exact ⟨rfl, rfl, rfl, rfl⟩

end Backend

namespace Frontend

theorem panelState_bounds (evs : List PanelEvent) :
    0 ≤ panelState evs ∧ panelState evs ≤ 100 := by
  unfold panelState
  suffices h : ∀ s : ℚ, 0 ≤ s → s ≤ 100 →
      0 ≤ evs.foldl panelStep s ∧ evs.foldl panelStep s ≤ 100 by
    exact h 30 (by norm_num) (by norm_num)
  induction evs with
  | nil => intro s h0 h1; exact ⟨h0, h1⟩
  | cons e t ih =>
    intro s h0 h1
    simp only [List.foldl_cons]
    cases e with
    | setReduction v =>
      exact ih (panelStep s (.setReduction v))
        (le_min (by norm_num) (le_max_left 0 v)) (min_le_left _ _)
    | reset => exact ih 30 (by norm_num) (by norm_num)

end Frontend

/-! The claim theorems. -/

/-- Claim C1: for every well-formed baseline traffic and AQI collection,
applying the scenario transformation with `reductionPct = 0` is a no-op:
the after traffic collection equals the before traffic collection and
the after AQI collection equals the before AQI collection
field-for-field. -/
theorem reduction_zero_is_noop (cfg : Backend.Config) (s : Backend.Store)
    (hs : ∀ f ∈ s.traffic, 0 ≤ f.speed)
    (hv : ∀ f ∈ s.traffic, 0 ≤ f.volume)
    (hc : ∀ f ∈ s.traffic, ∀ c ∈ f.capacity, 0 < c ∧ f.congestion = f.volume / c)
    (ha : ∀ g ∈ s.aqi, 0 ≤ g.aqi) (hp : ∀ g ∈ s.aqi, 0 ≤ g.pm25)
    (hq : ∀ g ∈ s.aqi, 0 ≤ g.pm10) :
    (Backend.applyScenario cfg 0 s).traffic = s.traffic ∧
      (Backend.applyScenario cfg 0 s).aqi = s.aqi := by
  constructor
  · exact Backend.map_eq_self_of fun f hf =>
      Backend.transformTrafficFeature_zero cfg f (hs f hf) (hv f hf) (hc f hf)
  · exact Backend.map_eq_self_of fun g hg =>
      Backend.transformAQIFeature_zero cfg g (ha g hg) (hp g hg) (hq g hg)

/-- Witness for C1: the no-op theorem applied to the concrete sample
store. -/
theorem reduction_zero_is_noop_witness :
    (Backend.applyScenario Backend.cfg₀ 0 Backend.store₁).traffic = Backend.store₁.traffic ∧
      (Backend.applyScenario Backend.cfg₀ 0 Backend.store₁).aqi = Backend.store₁.aqi :=
  reduction_zero_is_noop Backend.cfg₀ Backend.store₁
    (by simp [Backend.store₁]) (by simp [Backend.store₁]) (by simp [Backend.store₁])
    (by simp [Backend.store₁]) (by norm_num [Backend.store₁]) (by norm_num [Backend.store₁])

/-- Claim C4: empty input collections yield all-zero metrics rather than
an error, and the map page's aggregate helpers return `0` when the input
is null or its features array is empty, without dividing by zero. -/
theorem empty_collections_all_zero :
    Backend.computeMetrics ([] : List Backend.TrafficFeature) ([] : List Backend.AQIFeature)
        (Backend.baselineOf { traffic := [], aqi := [] }) =
      { avg_speed := 0, congestion_index := 0, co2_reduction := 0, aqi_improvement := 0 } ∧
    Client.calculateAvgTraffic none = 0 ∧
    Client.calculateAvgAQI none = 0 ∧
    (∀ d : Client.TrafficData, d.features = [] → Client.calculateAvgTraffic (some d) = 0) ∧
    (∀ d : Client.AQIData, d.features = [] → Client.calculateAvgAQI (some d) = 0) := by
  refine ⟨?_, rfl, rfl, ?_, ?_⟩
  · simp [Backend.computeMetrics, Backend.baselineOf, Backend.relDelta, meanQ]
  · intro d h
    simp [Client.calculateAvgTraffic, h]
  · intro d h
    simp [Client.calculateAvgAQI, h]

/-- Witness for C4: the empty-collection clauses applied to concrete
empty collections. -/
theorem empty_collections_all_zero_witness :
    Client.calculateAvgTraffic (some { features := [] }) = 0 ∧
      Client.calculateAvgAQI (some { features := [] }) = 0 :=
  ⟨empty_collections_all_zero.2.2.2.1 { features := [] } rfl,
   empty_collections_all_zero.2.2.2.2 { features := [] } rfl⟩

/-- Claim C5: on non-empty collections the aggregates are arithmetic
means: `calculateAvgTraffic` is the mean of the `traffic_volume`
properties, `calculateAvgAQI` is the mean of the `aqi` properties,
`avg_speed` is the mean of the traffic features' speeds, and the AQI
aggregate feeding the improvement percentage is the mean `aqi` across
points. -/
theorem aggregates_are_means :
    (∀ d : Client.TrafficData, d.features ≠ [] →
      Client.calculateAvgTraffic (some d) =
        (d.features.map (fun f => f.properties.traffic_volume)).sum / d.features.length) ∧
    (∀ d : Client.AQIData, d.features ≠ [] →
      Client.calculateAvgAQI (some d) =
        (d.features.map (fun f => f.properties.aqi)).sum / d.features.length) ∧
    (∀ (tc : List Backend.TrafficFeature) (ac : List Backend.AQIFeature)
        (b : Backend.BaselineSnapshot),
      (Backend.computeMetrics tc ac b).avg_speed =
        (tc.map (fun f => f.speed)).sum / tc.length) ∧
    (∀ s : Backend.Store,
      (Backend.baselineOf s).aqiMean = (s.aqi.map (fun g => g.aqi)).sum / s.aqi.length) := by
  refine ⟨?_, ?_, ?_, ?_⟩
  · intro d h
    simp [Client.calculateAvgTraffic, List.length_eq_zero, h]
  · intro d h
    simp [Client.calculateAvgAQI, List.length_eq_zero, h]
  · intro tc ac b
    simp [Backend.computeMetrics, meanQ]
  · intro s
    simp [Backend.baselineOf, meanQ]

/-- Claim C2: for a fixed well-formed baseline and reduction percentages
`pct₁ ≤ pct₂` in `[0, 100]`, the after metrics' `co2_reduction` and
`aqi_improvement` are monotonically non-decreasing in the reduction
percentage, and increasing the reduction never increases any pollutant
value (`pm25`, `pm10`, `aqi`) of the transformed AQI features. -/
theorem after_metrics_monotone (cfg : Backend.Config) (s : Backend.Store) (pct₁ pct₂ : ℚ)
    (hk : 0 ≤ cfg.kAqi)
    (hv : ∀ f ∈ s.traffic, 0 ≤ f.volume)
    (ha : ∀ g ∈ s.aqi, 0 ≤ g.aqi) (hp : ∀ g ∈ s.aqi, 0 ≤ g.pm25)
    (hq : ∀ g ∈ s.aqi, 0 ≤ g.pm10)
    (h0 : 0 ≤ pct₁) (h12 : pct₁ ≤ pct₂) (h100 : pct₂ ≤ 100) :
    (Backend.afterMetrics cfg s pct₁).co2_reduction ≤
        (Backend.afterMetrics cfg s pct₂).co2_reduction ∧
      (Backend.afterMetrics cfg s pct₁).aqi_improvement ≤
        (Backend.afterMetrics cfg s pct₂).aqi_improvement ∧
      (∀ g ∈ s.aqi,
        (Backend.transformAQIFeature cfg pct₂ g).pm25 ≤
            (Backend.transformAQIFeature cfg pct₁ g).pm25 ∧
          (Backend.transformAQIFeature cfg pct₂ g).pm10 ≤
            (Backend.transformAQIFeature cfg pct₁ g).pm10 ∧
          (Backend.transformAQIFeature cfg pct₂ g).aqi ≤
            (Backend.transformAQIFeature cfg pct₁ g).aqi) := by
  have hfac : 1 - pct₂ / 100 ≤ 1 - pct₁ / 100 := by
    have h : pct₁ / 100 ≤ pct₂ / 100 :=
      (div_le_div_iff_of_pos_right (by norm_num)).mpr h12
    linarith
  have hafac : 1 - cfg.kAqi * pct₂ / 100 ≤ 1 - cfg.kAqi * pct₁ / 100 := by
    have h : cfg.kAqi * pct₁ ≤ cfg.kAqi * pct₂ := mul_le_mul_of_nonneg_left h12 hk
    have h2 : cfg.kAqi * pct₁ / 100 ≤ cfg.kAqi * pct₂ / 100 :=
      (div_le_div_iff_of_pos_right (by norm_num)).mpr h
    linarith
  refine ⟨?_, ?_, ?_⟩
  · simp only [Backend.afterMetrics, Backend.computeMetrics, Backend.applyScenario,
      List.map_map]
    apply Backend.relDelta_mono
    · apply Backend.meanQ_nonneg
      intro x hx
      obtain ⟨f, hf, rfl⟩ := List.mem_map.mp hx
      exact hv f hf
    · apply Backend.meanQ_map_le
      intro f hf
      show max 0 (f.volume * (1 - pct₂ / 100)) ≤ max 0 (f.volume * (1 - pct₁ / 100))
      exact max_le_max (le_refl 0) (mul_le_mul_of_nonneg_left hfac (hv f hf))
  · simp only [Backend.afterMetrics, Backend.computeMetrics, Backend.applyScenario,
      List.map_map]
    apply Backend.relDelta_mono
    · apply Backend.meanQ_nonneg
      intro x hx
      obtain ⟨g, hg, rfl⟩ := List.mem_map.mp hx
      exact ha g hg
    · apply Backend.meanQ_map_le
      intro g hg
      show max 0 (g.aqi * (1 - cfg.kAqi * pct₂ / 100)) ≤
        max 0 (g.aqi * (1 - cfg.kAqi * pct₁ / 100))
      exact max_le_max (le_refl 0) (mul_le_mul_of_nonneg_left hafac (ha g hg))
  · intro g hg
    refine ⟨?_, ?_, ?_⟩
    · exact max_le_max (le_refl 0) (mul_le_mul_of_nonneg_left hafac (hp g hg))
    · exact max_le_max (le_refl 0) (mul_le_mul_of_nonneg_left hafac (hq g hg))
    · exact max_le_max (le_refl 0) (mul_le_mul_of_nonneg_left hafac (ha g hg))

/-- Witness for C2: the monotonicity theorem applied to the sample store
with reductions 10 and 50. -/
theorem after_metrics_monotone_witness :
    (Backend.afterMetrics Backend.cfg₀ Backend.store₁ 10).co2_reduction ≤
      (Backend.afterMetrics Backend.cfg₀ Backend.store₁ 50).co2_reduction :=
  (after_metrics_monotone Backend.cfg₀ Backend.store₁ 10 50
    (by norm_num [Backend.cfg₀]) (by simp [Backend.store₁]) (by simp [Backend.store₁])
    (by norm_num [Backend.store₁]) (by norm_num [Backend.store₁])
    (by norm_num) (by norm_num) (by norm_num)).1

/-- Claim C3: with `reductionPct = 100` the transformation produces no
negative values anywhere: every transformed volume, pm25, pm10 and aqi
field is non-negative, and no transformed feature has a negative speed
or congestion. -/
theorem reduction_hundred_nonneg (cfg : Backend.Config) (s : Backend.Store)
    (hk : 0 ≤ cfg.kSpeed)
    (hs : ∀ f ∈ s.traffic, 0 ≤ f.speed)
    (hcap : ∀ f ∈ s.traffic, ∀ c ∈ f.capacity, 0 < c) :
    (∀ f ∈ (Backend.applyScenario cfg 100 s).traffic,
      0 ≤ f.speed ∧ 0 ≤ f.volume ∧ 0 ≤ f.congestion) ∧
      (∀ g ∈ (Backend.applyScenario cfg 100 s).aqi,
        0 ≤ g.aqi ∧ 0 ≤ g.pm25 ∧ 0 ≤ g.pm10) := by
  constructor
  · intro f hf
    obtain ⟨f₀, hf₀, rfl⟩ := List.mem_map.mp hf
    exact Backend.transformTrafficFeature_hundred_nonneg cfg f₀ hk (hs f₀ hf₀) (hcap f₀ hf₀)
  · intro g hg
    obtain ⟨g₀, hg₀, rfl⟩ := List.mem_map.mp hg
    exact ⟨le_max_left _ _, le_max_left _ _, le_max_left _ _⟩

/-- Witness for C3: the non-negativity theorem applied to the sample
store, instantiated at its single transformed traffic feature. -/
theorem reduction_hundred_nonneg_witness :
    0 ≤ (Backend.transformTrafficFeature Backend.cfg₀ 100
        { speed := 25, congestion := 1/2, volume := 1200, capacity := none }).speed ∧
      0 ≤ (Backend.transformTrafficFeature Backend.cfg₀ 100
        { speed := 25, congestion := 1/2, volume := 1200, capacity := none }).volume ∧
      0 ≤ (Backend.transformTrafficFeature Backend.cfg₀ 100
        { speed := 25, congestion := 1/2, volume := 1200, capacity := none }).congestion :=
  (reduction_hundred_nonneg Backend.cfg₀ Backend.store₁
      (by norm_num [Backend.cfg₀]) (by simp [Backend.store₁]) (by simp [Backend.store₁])).1
    (Backend.transformTrafficFeature Backend.cfg₀ 100
      { speed := 25, congestion := 1/2, volume := 1200, capacity := none })
    (by simp [Backend.applyScenario, Backend.store₁])

/-- Claim C6: the orchestrator validates `0 ≤ reductionPct ≤ 100` and
fails with `InvalidParameter` for every value outside the range before
any computation, and the simulation panel's range input constrains every
request it produces to a `vehicle_reduction` in `[0, 100]`. -/
theorem invalid_parameter_rejected :
    (∀ (cfg : Backend.Config) (s : Backend.Store) (pct : ℚ), (pct < 0 ∨ 100 < pct) →
      Backend.simulate cfg s pct = Except.error Backend.SimError.invalidParameter) ∧
      (∀ evs : List Frontend.PanelEvent,
        0 ≤ (Frontend.requestPayload evs).vehicle_reduction ∧
          (Frontend.requestPayload evs).vehicle_reduction ≤ 100) := by
  constructor
  · intro cfg s pct h
    unfold Backend.simulate
    rw [if_pos h]
  · intro evs
    exact Frontend.panelState_bounds evs

/-- Witness for C6: rejection at reduction 150, and the panel bound for
a slider event driven beyond the range. -/
theorem invalid_parameter_rejected_witness :
    Backend.simulate Backend.cfg₀ Backend.store₁ 150 =
        Except.error Backend.SimError.invalidParameter ∧
      0 ≤ (Frontend.requestPayload [Frontend.PanelEvent.setReduction 250]).vehicle_reduction ∧
        (Frontend.requestPayload [Frontend.PanelEvent.setReduction 250]).vehicle_reduction ≤ 100 :=
  ⟨invalid_parameter_rejected.1 Backend.cfg₀ Backend.store₁ 150 (Or.inr (by norm_num)),
   invalid_parameter_rejected.2 [Frontend.PanelEvent.setReduction 250]⟩

/-- Claim C7: for every simulation input, the after collections have the
same feature count as the before collections, and feature `i` of after
is the transformation of feature `i` of before, so ordering is
preserved. -/
theorem after_preserves_count_and_order (cfg : Backend.Config) (s : Backend.Store) (pct : ℚ)
    (r : Backend.SimulationResult) (h : Backend.simulate cfg s pct = Except.ok r) :
    r.after.traffic.length = r.before.traffic.length ∧
      r.after.aqi.length = r.before.aqi.length ∧
      (∀ (i : ℕ) (h₁ : i < r.before.traffic.length) (h₂ : i < r.after.traffic.length),
        r.after.traffic.get ⟨i, h₂⟩ =
          Backend.transformTrafficFeature cfg pct (r.before.traffic.get ⟨i, h₁⟩)) ∧
      (∀ (i : ℕ) (h₁ : i < r.before.aqi.length) (h₂ : i < r.after.aqi.length),
        r.after.aqi.get ⟨i, h₂⟩ =
          Backend.transformAQIFeature cfg pct (r.before.aqi.get ⟨i, h₁⟩)) := by
  obtain ⟨hb, ha, -, -⟩ := Backend.simulate_ok_inv cfg s pct r h
  rw [hb, ha]
  refine ⟨by simp [Backend.applyScenario], by simp [Backend.applyScenario], ?_, ?_⟩
  · intro i h₁ h₂
    simp [Backend.applyScenario, List.get_map]
  · intro i h₁ h₂
    simp [Backend.applyScenario, List.get_map]

/-- Witness for C7: count preservation on the concrete sample run. -/
theorem after_preserves_count_and_order_witness :
    Backend.result₁.after.traffic.length = Backend.result₁.before.traffic.length :=
  (after_preserves_count_and_order Backend.cfg₀ Backend.store₁ 30 Backend.result₁ rfl).1

/-- Claim C8: every successful simulation reports `co2_reduction = 0`
and `aqi_improvement = 0` in the before metrics, and the metrics panel
renders the before values of the CO2-reduction and AQI-improvement
cards as the constant `0` regardless of the response contents. -/
theorem before_metrics_zero_deltas :
    (∀ (cfg : Backend.Config) (s : Backend.Store) (pct : ℚ) (r : Backend.SimulationResult),
      Backend.simulate cfg s pct = Except.ok r →
        r.metricsBefore.co2_reduction = 0 ∧ r.metricsBefore.aqi_improvement = 0) ∧
      (∀ mb ma : Frontend.Metrics,
        ((Frontend.metricsPanelCards mb ma).get ⟨2, by simp [Frontend.metricsPanelCards]⟩).before = 0 ∧
          ((Frontend.metricsPanelCards mb ma).get ⟨3, by simp [Frontend.metricsPanelCards]⟩).before = 0) := by
  constructor
  · intro cfg s pct r h
    obtain ⟨-, -, hm, -⟩ := Backend.simulate_ok_inv cfg s pct r h
    rw [hm]
    exact ⟨Backend.relDelta_self _, Backend.relDelta_self _⟩
  · intro mb ma
    exact ⟨rfl, rfl⟩

/-- Witness for C8: the zero before-deltas on the concrete sample run
and on concrete panel metrics. -/
theorem before_metrics_zero_deltas_witness :
    Backend.result₁.metricsBefore.co2_reduction = 0 ∧
      Backend.result₁.metricsBefore.aqi_improvement = 0 :=
  before_metrics_zero_deltas.1 Backend.cfg₀ Backend.store₁ 30 Backend.result₁ rfl

/-- Claim C10: the API client's `runSimulation` returns the parsed
response exactly when the HTTP response is ok and the parsed body is
non-null and contains all three of the `before`, `after` and `metrics`
fields; in every other case it throws an error instead of returning a
value. -/
theorem run_simulation_requires_fields (resp : Frontend.HttpResponse) :
    (∃ v, Frontend.runSimulation resp = Except.ok v) ↔
      (resp.ok = true ∧ ∃ d, resp.body = some d ∧
        d.before.isSome = true ∧ d.after.isSome = true ∧ d.metrics.isSome = true) := by
  obtain ⟨ok, body⟩ := resp
  cases ok
  · simp [Frontend.runSimulation]
  · cases body with
    | none => simp [Frontend.runSimulation]
    | some d =>
      obtain ⟨b, a, m⟩ := d
      cases b <;> cases a <;> cases m <;> simp [Frontend.runSimulation]

/-- Witness for C10: the equivalence applied to a concrete complete
response. -/
theorem run_simulation_requires_fields_witness :
    (Frontend.runSimulation Frontend.respOk₁).isOk = true := by
  obtain ⟨v, hv⟩ := (run_simulation_requires_fields Frontend.respOk₁).mpr
    ⟨rfl, Frontend.body₁, rfl, rfl, rfl, rfl⟩
  rw [hv]
  rfl

/-- Witness for C5: the mean equations applied to concrete one-feature
collections. -/
theorem aggregates_are_means_witness :
    Client.calculateAvgTraffic (some Client.dT₁) =
      (Client.dT₁.features.map (fun f => f.properties.traffic_volume)).sum /
        Client.dT₁.features.length ∧
    Client.calculateAvgAQI (some Client.dA₁) =
      (Client.dA₁.features.map (fun f => f.properties.aqi)).sum /
        Client.dA₁.features.length :=
  ⟨aggregates_are_means.1 Client.dT₁ (by decide),
   aggregates_are_means.2.1 Client.dA₁ (by decide)⟩

end UrbanPulse
